import Mathlib

/-!
Verification of the SevaLink request lifecycle and single-acceptor matching
engine, shallowly embedded from `src/server/routes/requests.js`.

Identifiers (Mongo ObjectIds) are modelled as `Nat`, timestamps as `Nat`,
and the request/user stores as association lists keyed by id.  Each Express
handler becomes a pure Lean function from the stores and the request
parameters to an `Except`-style result; the document `save()` of a handler
becomes an explicit replacement of the document in the store.
-/

/-- One element of a request's `accepters` array
(`{user, acceptedAt, status}` in the Mongoose schema). -/
structure Accepter where
  user : Nat
  acceptedAt : Nat
  status : String
deriving DecidableEq

/-- The fields of a persisted `Request` document that the routes in
`src/server/routes/requests.js` read or write.  Type-specific payload
fields are `Option`-valued because a document only carries the fields of
its own `type`. -/
structure Request where
  id : Nat
  type : String
  user : Nat
  name : String
  phone : String
  location : String
  bloodType : Option String
  urgencyLevel : Option String
  priority : Option String
  serviceType : Option String
  dueDate : Option Nat
  title : Option String
  description : Option String
  category : Option String
  images : List String
  contactInfo : Option String
  status : String
  accepters : List Accepter
  createdAt : Nat
  updatedAt : Nat
deriving DecidableEq

/-- A `User` document as read by the routes (`name/phone/email/role`);
`phone` is optional because the create handler tests its truthiness. -/
structure UserDoc where
  id : Nat
  name : String
  phone : Option String
  email : String
  role : String
deriving DecidableEq

/-- The request store: the collection of persisted `Request` documents. -/
abbrev Store := List Request

/-- The user directory. -/
abbrev Users := List UserDoc

/-- `Request.findById` on the store. -/
def findRequest (store : Store) (rid : Nat) : Option Request :=
  store.find? (fun r => r.id = rid)

/-- `User.findById` on the user directory. -/
def findUser (users : Users) (uid : Nat) : Option UserDoc :=
  users.find? (fun u => u.id = uid)

/-- `document.save()` after mutating a fetched document: replaces the
document with the given id by the locally modified copy. -/
def saveRequest (store : Store) (rid : Nat) (updated : Request) : Store :=
  store.map (fun r => if r.id = rid then updated else r)

/-- `Request.findByIdAndDelete`. -/
def deleteRequest (store : Store) (rid : Nat) : Store :=
  store.filter (fun r => !(r.id = rid))

/-- Contact triple extracted from a populated user reference
(`name phone email`). -/
structure Contact where
  name : String
  phone : Option String
  email : String
deriving DecidableEq

/-- Contact view of a user from the directory. -/
def contactOf (users : Users) (uid : Nat) : Option Contact :=
  (findUser users uid).map (fun u => ⟨u.name, u.phone, u.email⟩)

/-! ## Volunteer (`POST /:id/volunteer`) — the matching engine -/

/-- The distinct failure branches of the volunteer handler, in source
order: 404 request not found, 400 not a blood request, 400 own request,
404 volunteer user not found, 400 already has an accepter, 400 viewer
already volunteered. -/
inductive VolunteerError where
  | notFound
  | wrongType
  | selfAcceptance
  | volunteerNotFound
  | alreadyAccepted
  | alreadyVolunteered
deriving DecidableEq

/-- The success payload of the volunteer handler: the saved request, the
owner id of the fetched request, the acceptance record that was pushed,
and the requester/donor contact blocks of the JSON response. -/
structure VolunteerSuccess where
  updated : Request
  ownerId : Nat
  record : Accepter
  requester : Option Contact
  donor : Contact
deriving DecidableEq

/-- Embedding of the `POST /:id/volunteer` handler body
(`src/server/routes/requests.js` lines 620–723): find the request, check
type, self-acceptance, volunteer existence, the one-to-one accepter
check, the already-volunteered check, then push
`{user, acceptedAt: now, status: "accepted"}`, set `status = "accepted"`
and build the response. -/
def tryAccept (store : Store) (users : Users) (candidateId rid now : Nat) :
    Except VolunteerError VolunteerSuccess :=
  match findRequest store rid with
  | none => .error .notFound
  | some request =>
    if request.type ≠ "blood" then .error .wrongType
    else if request.user = candidateId then .error .selfAcceptance
    else
      match findUser users candidateId with
      | none => .error .volunteerNotFound
      | some volunteer =>
        if request.accepters.length > 0 then .error .alreadyAccepted
        else if request.accepters.any (fun a => a.user = candidateId) then
          .error .alreadyVolunteered
        else
          let record : Accepter := ⟨candidateId, now, "accepted"⟩
          let updated := { request with
                           accepters := request.accepters ++ [record],
                           status := "accepted" }
          .ok { updated := updated,
                ownerId := request.user,
                record := record,
                requester := contactOf users request.user,
                donor := ⟨volunteer.name, volunteer.phone, volunteer.email⟩ }

/-- The volunteer handler as a store transformer: on success the mutated
document is saved back, otherwise the store is unchanged. -/
def volunteerOp (store : Store) (users : Users) (candidateId rid now : Nat) : Store :=
  match tryAccept store users candidateId rid now with
  | .ok s => saveRequest store rid s.updated
  | .error _ => store

/-! ## Create (`POST /`) -/

/-- The failure branches of the create handler after express-validator:
the owner user document missing from the directory (the handler would
dereference null), and the explicit `PHONE_REQUIRED` 400. -/
inductive CreateError where
  | ownerMissing
  | phoneRequired
deriving DecidableEq

/-- The request body of `POST /` after validation, with the optional and
type-conditional fields optional. -/
structure CreatePayload where
  type : String
  name : String
  phone : Option String
  location : String
  bloodType : Option String
  urgencyLevel : Option String
  serviceType : Option String
  dueDate : Option Nat
  title : Option String
  description : Option String
  category : Option String
  images : Option (List String)
deriving DecidableEq

/-- JavaScript truthiness of a possibly-absent string: `undefined` and
the empty string are falsy. -/
def truthy : Option String → Bool
  | none => false
  | some s => !s.isEmpty

/-- Modelled from the spec: the Mongoose `Request` model
(`src/server/models/Request.js`) is not under `src/`, and the create
handler sets no `status` and no `accepters`; per spec §3 a request is
created with `status = pending` and an empty `accepters` sequence, so
these are the constructor defaults. -/
def defaultStatus : String := "pending"

/-- Modelled from the spec: default `accepters` of a new document
(see `defaultStatus`). -/
def defaultAccepters : List Accepter := []

/-- Embedding of the `POST /` handler body
(`src/server/routes/requests.js` lines 166–229): resolve the owner,
compute `phoneNumber = body.phone || user.phone`, fail `PHONE_REQUIRED`
when falsy, then build `requestData` with the generic fields plus the
fields of the request's own `type`, and save the new document. -/
def createRequest (users : Users) (ownerId : Nat) (p : CreatePayload)
    (newId now : Nat) : Except CreateError Request :=
  match findUser users ownerId with
  | none => .error .ownerMissing
  | some user =>
    let phoneNumber := if truthy p.phone then p.phone else user.phone
    if !truthy phoneNumber then .error .phoneRequired
    else
      let base : Request :=
        { id := newId, type := p.type, user := ownerId, name := p.name,
          phone := phoneNumber.getD "", location := p.location,
          bloodType := none, urgencyLevel := none, priority := none,
          serviceType := none, dueDate := none, title := none,
          description := none, category := none, images := [],
          contactInfo := none, status := defaultStatus,
          accepters := defaultAccepters, createdAt := now, updatedAt := now }
      if p.type = "blood" then
        .ok { base with bloodType := p.bloodType,
                        urgencyLevel := p.urgencyLevel,
                        priority := p.urgencyLevel }
      else if p.type = "elder_support" then
        .ok { base with serviceType := p.serviceType, dueDate := p.dueDate }
      else if p.type = "complaint" then
        .ok { base with title := p.title, description := p.description,
                        category := p.category, images := p.images.getD [] }
      else .ok base

/-- The create handler as a store transformer. -/
def createOp (store : Store) (users : Users) (ownerId : Nat)
    (p : CreatePayload) (newId now : Nat) : Store :=
  match createRequest users ownerId p newId now with
  | .ok r => store ++ [r]
  | .error _ => store

/-! ## Update (`PUT /:id`) -/

/-- The failure branches of the update handler: 404, 403 non-owner,
400 not pending. -/
inductive UpdateError where
  | notFound
  | forbidden
  | notPending
deriving DecidableEq

/-- The request body of `PUT /:id`.  `phone` and `status` are carried as
representative fields outside every allow-list: the handler reads
neither. -/
structure UpdatePayload where
  name : Option String
  location : Option String
  contactInfo : Option String
  bloodType : Option String
  urgencyLevel : Option String
  serviceType : Option String
  dueDate : Option Nat
  title : Option String
  description : Option String
  category : Option String
  phone : Option String
  status : Option String
deriving DecidableEq

/-- The `allowedUpdates = [name, location, contactInfo]` pass of the
update handler: copy each present body field onto the document. -/
def applyGenericUpdates (r : Request) (b : UpdatePayload) : Request :=
  let r1 := match b.name with | some v => { r with name := v } | none => r
  let r2 := match b.location with | some v => { r1 with location := v } | none => r1
  match b.contactInfo with | some v => { r2 with contactInfo := some v } | none => r2

/-- The `typeSpecificUpdates[request.type]` pass of the update handler. -/
def applyTypeUpdates (r : Request) (b : UpdatePayload) : Request :=
  if r.type = "blood" then
    let r1 := match b.bloodType with | some v => { r with bloodType := some v } | none => r
    match b.urgencyLevel with | some v => { r1 with urgencyLevel := some v } | none => r1
  else if r.type = "elder_support" then
    let r1 := match b.serviceType with | some v => { r with serviceType := some v } | none => r
    match b.dueDate with | some v => { r1 with dueDate := some v } | none => r1
  else if r.type = "complaint" then
    let r1 := match b.title with | some v => { r with title := some v } | none => r
    let r2 := match b.description with | some v => { r1 with description := some v } | none => r1
    match b.category with | some v => { r2 with category := some v } | none => r2
  else r

/-- Embedding of the `PUT /:id` handler body
(`src/server/routes/requests.js` lines 398–463): find, owner check,
pending check, then assign the collected allow-listed updates and save. -/
def updateRequest (store : Store) (viewerId rid : Nat) (b : UpdatePayload) :
    Except UpdateError Request :=
  match findRequest store rid with
  | none => .error .notFound
  | some r =>
    if r.user ≠ viewerId then .error .forbidden
    else if r.status ≠ "pending" then .error .notPending
    else .ok (applyTypeUpdates (applyGenericUpdates r b) b)

/-- The update handler as a store transformer. -/
def updateOp (store : Store) (viewerId rid : Nat) (b : UpdatePayload) : Store :=
  match updateRequest store viewerId rid b with
  | .ok r => saveRequest store rid r
  | .error _ => store

/-! ## Delete (`DELETE /:id`) -/

/-- The failure branches of the delete handler. -/
inductive DeleteError where
  | notFound
  | forbidden
deriving DecidableEq

/-- The precondition part of the `DELETE /:id` handler
(`src/server/routes/requests.js` lines 468–498). -/
def tryDelete (store : Store) (viewerId rid : Nat) : Except DeleteError Unit :=
  match findRequest store rid with
  | none => .error .notFound
  | some r =>
    if r.user ≠ viewerId then .error .forbidden
    else .ok ()

/-- The delete handler as a store transformer. -/
def deleteOp (store : Store) (viewerId rid : Nat) : Store :=
  match tryDelete store viewerId rid with
  | .ok _ => deleteRequest store rid
  | .error _ => store

/-! ## Single read (`GET /:id`) -/

/-- The failure branches of the single-request read: 404, the viewer
user document missing (the handler would dereference null), and the
403 citizen-role gate. -/
inductive GetError where
  | notFound
  | viewerMissing
  | forbidden
deriving DecidableEq

/-- The success payload of `GET /:id`: the stored document unmodified,
with the owner reference populated from the user directory. -/
structure GetView where
  request : Request
  ownerContact : Option Contact
deriving DecidableEq

/-- Embedding of the `GET /:id` handler body
(`src/server/routes/requests.js` lines 358–393): find and populate the
request, load the viewer, reject citizens reading requests they do not
own, and otherwise return the request as stored — no field is redacted
on this path. -/
def getRequestById (store : Store) (users : Users) (viewerId rid : Nat) :
    Except GetError GetView :=
  match findRequest store rid with
  | none => .error .notFound
  | some r =>
    match findUser users viewerId with
    | none => .error .viewerMissing
    | some u =>
      if u.role = "citizen" ∧ r.user ≠ viewerId then .error .forbidden
      else .ok ⟨r, contactOf users r.user⟩

/-! ## List (`GET /`) -/

/-- A populated accepter as it appears in a list item: the referenced
user id plus the contact block shown for it. -/
structure AccepterView where
  userId : Nat
  contact : Option Contact
  acceptedAt : Nat
  status : String
deriving DecidableEq

/-- One element of the `requests` array returned by `GET /`. The
possibly-redacted phone sits inside `request.phone`. -/
structure ListItem where
  request : Request
  accepters : List AccepterView
deriving DecidableEq

/-- Populate one accepter from the user directory. -/
def populateAccepter (users : Users) (a : Accepter) : AccepterView :=
  ⟨a.user, contactOf users a.user, a.acceptedAt, a.status⟩

/-- The per-item visibility mapping of `GET /`
(`src/server/routes/requests.js` lines 57–88): owners and accepters see
the full item; for everyone else each accepter contact block and the
request phone are replaced by the `"Hidden"` sentinel. -/
def listItemFor (users : Users) (viewerId : Nat) (r : Request) : ListItem :=
  let isOwner := r.user = viewerId
  let isAccepter := r.accepters.any (fun a => a.user = viewerId)
  if isOwner ∨ isAccepter = true then
    ⟨r, r.accepters.map (populateAccepter users)⟩
  else
    ⟨{ r with phone := "Hidden" },
     r.accepters.map (fun a =>
       ⟨a.user, some ⟨"Hidden", some "Hidden", "Hidden"⟩, a.acceptedAt, a.status⟩)⟩

/-- The Mongo query of `GET /`: always `user = viewerId`, plus the
optional exact `type` filter and the `$in` status filter (the handler
splits the comma-separated status parameter into `statusFilter`). -/
def listQueryMatches (viewerId : Nat) (typeFilter : Option String)
    (statusFilter : Option (List String)) (r : Request) : Bool :=
  r.user == viewerId &&
  (match typeFilter with | some t => r.type == t | none => true) &&
  (match statusFilter with | some ss => ss.contains r.status | none => true)

/-- The sort comparator selected by `sortBy`: `oldest` ascending by
`createdAt`, `updated` descending by `updatedAt`, default (`newest`)
descending by `createdAt`. -/
def listSortLe (sortBy : String) (a b : Request) : Bool :=
  match sortBy with
  | "oldest" => a.createdAt ≤ b.createdAt
  | "updated" => b.updatedAt ≤ a.updatedAt
  | _ => b.createdAt ≤ a.createdAt

/-- Embedding of the `GET /` handler body
(`src/server/routes/requests.js` lines 11–99): filter, sort, paginate
(`skip (page−1)·limit`, `limit`), then apply the per-item visibility
mapping. -/
def listRequests (store : Store) (users : Users) (viewerId : Nat)
    (typeFilter : Option String) (statusFilter : Option (List String))
    (sortBy : String) (page limit : Nat) : List ListItem :=
  let matched := store.filter (listQueryMatches viewerId typeFilter statusFilter)
  let sorted := matched.mergeSort (listSortLe sortBy)
  let paged := (sorted.drop ((page - 1) * limit)).take limit
  paged.map (listItemFor users viewerId)

/-! ## Public blood listing (`GET /public/blood`) -/

/-- One element of the `requests` array returned by `GET /public/blood`. -/
structure PublicItem where
  id : Nat
  name : String
  phone : String
  location : String
  bloodType : Option String
  urgencyLevel : Option String
  status : String
  createdAt : Nat
  userId : Nat
  userName : String
deriving DecidableEq

/-- Embedding of the `GET /public/blood` handler body
(`src/server/routes/requests.js` lines 501–540): pending blood requests
of other users with no accepter (the `$or` of a missing and an empty
`accepters` array collapses to emptiness), newest first, at most 50,
each projected with `phone = "Hidden"` and the populated owner reduced
to `{_id, name: "Hidden"}`. -/
def publicBloodRequests (store : Store) (viewerId : Nat) : List PublicItem :=
  let matched := store.filter (fun r =>
    r.type == "blood" && r.status == "pending" &&
    !(r.user == viewerId) && r.accepters.isEmpty)
  let sorted := matched.mergeSort (fun a b => b.createdAt ≤ a.createdAt)
  (sorted.take 50).map (fun r =>
    ⟨r.id, r.name, "Hidden", r.location, r.bloodType, r.urgencyLevel,
     r.status, r.createdAt, r.user, "Hidden"⟩)

/-! ## Mutual contacts (`GET /:id/contacts`) -/

/-- The failure branches of the contacts read, in source order. -/
inductive ContactsError where
  | notFound
  | wrongType
  | forbidden
  | notAccepted
deriving DecidableEq

/-- The donor block of the contacts response. -/
structure DonorBlock where
  name : String
  phone : Option String
  email : String
  acceptedAt : Nat
deriving DecidableEq

/-- The success payload of `GET /:id/contacts`. -/
structure ContactsView where
  id : Nat
  status : String
  acceptedAt : Option Nat
  userRole : String
  requester : Option Contact
  donor : Option DonorBlock
deriving DecidableEq

/-- Embedding of the `GET /:id/contacts` handler body
(`src/server/routes/requests.js` lines 543–617): find and populate, 400
unless blood, 403 unless the viewer is the requester or an accepter,
400 unless `status = accepted`, then the symmetric requester/donor
response built from `accepters[0]`. -/
def getMutualContacts (store : Store) (users : Users) (viewerId rid : Nat) :
    Except ContactsError ContactsView :=
  match findRequest store rid with
  | none => .error .notFound
  | some r =>
    if r.type ≠ "blood" then .error .wrongType
    else
      let isRequester := r.user == viewerId
      let isAccepter := r.accepters.any (fun a => a.user = viewerId)
      if !(isRequester || isAccepter) then .error .forbidden
      else if r.status ≠ "accepted" then .error .notAccepted
      else
        let accepterHead := r.accepters.head?
        .ok { id := r.id, status := r.status,
              acceptedAt := accepterHead.map (fun a => a.acceptedAt),
              userRole := if isRequester then "requester" else "donor",
              requester := contactOf users r.user,
              donor := accepterHead.bind (fun a =>
                (contactOf users a.user).map (fun c =>
                  ⟨c.name, c.phone, c.email, a.acceptedAt⟩)) }

/-! ## Interleaving model of the volunteer handler

The handler is a plain read-check-write: `findById`, the precondition
checks, then `save()`.  Every store access is a suspension point, so two
concurrent invocations may both complete their checks against the same
initial store before either write commits.  The handler is split below
into its check phase (everything up to and including the accepter
checks, performed on the fetched snapshot) and its write phase (mutate
the snapshot and save it); running the two phases back to back is
exactly `tryAccept`. -/

/-- The read-and-check phase of the volunteer handler: identical checks
to `tryAccept`, returning the fetched request snapshot and the volunteer
document on success. -/
def volunteerCheckPhase (store : Store) (users : Users) (candidateId rid : Nat) :
    Except VolunteerError (Request × UserDoc) :=
  match findRequest store rid with
  | none => .error .notFound
  | some request =>
    if request.type ≠ "blood" then .error .wrongType
    else if request.user = candidateId then .error .selfAcceptance
    else
      match findUser users candidateId with
      | none => .error .volunteerNotFound
      | some volunteer =>
        if request.accepters.length > 0 then .error .alreadyAccepted
        else if request.accepters.any (fun a => a.user = candidateId) then
          .error .alreadyVolunteered
        else .ok (request, volunteer)

/-- The write phase of the volunteer handler: push the acceptance record
onto the snapshot, flip its status, and save the snapshot back into the
current store. -/
def volunteerWritePhase (store : Store) (users : Users) (snapshot : Request)
    (volunteer : UserDoc) (candidateId now : Nat) : Store × VolunteerSuccess :=
  let record : Accepter := ⟨candidateId, now, "accepted"⟩
  let updated := { snapshot with
                   accepters := snapshot.accepters ++ [record],
                   status := "accepted" }
  (saveRequest store snapshot.id updated,
   { updated := updated, ownerId := snapshot.user, record := record,
     requester := contactOf users snapshot.user,
     donor := ⟨volunteer.name, volunteer.phone, volunteer.email⟩ })

/-- Two concurrent volunteer invocations under the schedule
read₁ · read₂ · write₁ · write₂: both check phases run against the
initial store, then the writes commit in order.  Returns both results
and the final store. -/
def racedVolunteer (store : Store) (users : Users) (c1 c2 rid n1 n2 : Nat) :
    Except VolunteerError VolunteerSuccess ×
    Except VolunteerError VolunteerSuccess × Store :=
  match volunteerCheckPhase store users c1 rid,
        volunteerCheckPhase store users c2 rid with
  | .ok (r1, v1), .ok (r2, v2) =>
    let (s1, res1) := volunteerWritePhase store users r1 v1 c1 n1
    let (s2, res2) := volunteerWritePhase s1 users r2 v2 c2 n2
    (.ok res1, .ok res2, s2)
  | .ok (r1, v1), .error e2 =>
    let (s1, res1) := volunteerWritePhase store users r1 v1 c1 n1
    (.ok res1, .error e2, s1)
  | .error e1, .ok (r2, v2) =>
    let (s2, res2) := volunteerWritePhase store users r2 v2 c2 n2
    (.error e1, .ok res2, s2)
  | .error e1, .error e2 => (.error e1, .error e2, store)

/-! ## The accepter-count invariant (spec I1) -/

/-- Spec invariant I1: every blood request in the store has at most one
acceptance record. -/
def invariantI1 (store : Store) : Prop :=
  ∀ r ∈ store, r.type = "blood" → r.accepters.length ≤ 1

instance (store : Store) : Decidable (invariantI1 store) := by
  unfold invariantI1
  infer_instance

/-! ## Demo documents used by concrete witnesses -/

/-- A pending blood request with no accepters, owned by user 1. -/
def demoRequest : Request :=
  { id := 10, type := "blood", user := 1, name := "n", phone := "111",
    location := "loc", bloodType := some "O+", urgencyLevel := some "urgent",
    priority := some "urgent", serviceType := none, dueDate := none,
    title := none, description := none, category := none, images := [],
    contactInfo := none, status := "pending", accepters := [], createdAt := 5,
    updatedAt := 5 }

/-- A store holding only `demoRequest`. -/
def demoStore : Store := [demoRequest]

/-- Owner 1 (citizen), donors 2 and 3 (volunteers), bystander 4 (citizen). -/
def demoUsers : Users :=
  [⟨1, "owner", some "111", "o@x", "citizen"⟩,
   ⟨2, "don", some "222", "d@x", "volunteer"⟩,
   ⟨3, "don3", some "333", "e@x", "volunteer"⟩,
   ⟨4, "other", some "444", "f@x", "citizen"⟩]

/-- The request after donor 2 accepted at time 7. -/
def demoAcceptedRequest : Request :=
  { demoRequest with accepters := [⟨2, 7, "accepted"⟩], status := "accepted" }

/-- A store holding only `demoAcceptedRequest`. -/
def demoAcceptedStore : Store := [demoAcceptedRequest]

/-- The concrete result of the demo volunteer call, for witnesses. -/
def demoVolunteerSuccess : VolunteerSuccess :=
  { updated := { demoRequest with accepters := [⟨2, 7, "accepted"⟩],
                                    status := "accepted" },
    ownerId := 1,
    record := ⟨2, 7, "accepted"⟩,
    requester := some ⟨"owner", some "111", "o@x"⟩,
    donor := ⟨"don", some "222", "d@x"⟩ }

/-- The payload of a demo blood request carrying no phone. -/
def demoPayload : CreatePayload :=
  { type := "blood", name := "n", phone := none, location := "loc",
    bloodType := some "O+", urgencyLevel := some "urgent",
    serviceType := none, dueDate := none, title := none,
    description := none, category := none, images := none }

/-- An update body whose only present field is `contactInfo`. -/
def demoUpdateBody : UpdatePayload :=
  { name := none, location := none, contactInfo := some "cinfo",
    bloodType := none, urgencyLevel := none, serviceType := none,
    dueDate := none, title := none, description := none, category := none,
    phone := none, status := none }

/-! ## Helper lemmas -/

/-- A found document is a member of the store. -/
theorem findRequest_mem {store : Store} {rid : Nat} {r : Request}
    (h : findRequest store rid = some r) : r ∈ store :=
  List.mem_of_find?_eq_some h

/-- Every member of a saved store is the saved document or an original
member. -/
theorem mem_saveRequest {store : Store} {rid : Nat} {u x : Request}
    (hx : x ∈ saveRequest store rid u) : x = u ∨ x ∈ store := by
  unfold saveRequest at hx
  rcases List.mem_map.mp hx with ⟨r, hr, he⟩
  by_cases h : r.id = rid
  · simp only [h, if_true] at he
    exact Or.inl he.symm
  · simp only [h, if_false] at he
    exact Or.inr (he ▸ hr)

/-- Characterization of a successful `tryAccept`: the request was found,
is a blood request not owned by the candidate, had no accepter, and the
result is exactly the pushed record, the flipped status and the two
contact blocks. -/
theorem tryAccept_ok_elim {store : Store} {users : Users} {c rid now : Nat}
    {s : VolunteerSuccess} (h : tryAccept store users c rid now = .ok s) :
    ∃ r v, findRequest store rid = some r ∧ findUser users c = some v ∧
      r.type = "blood" ∧ r.user ≠ c ∧ r.accepters = [] ∧
      s = ⟨{ r with accepters := [⟨c, now, "accepted"⟩], status := "accepted" },
           r.user, ⟨c, now, "accepted"⟩, contactOf users r.user,
           ⟨v.name, v.phone, v.email⟩⟩ := by
  unfold tryAccept at h
  cases hr : findRequest store rid with
  | none => rw [hr] at h; exact absurd h (by simp)
  | some r =>
    rw [hr] at h
    by_cases ht : r.type = "blood"
    · by_cases ho : r.user = c
      · simp [ht, ho] at h
      · simp only [ht, ne_eq, not_true_eq_false, if_false, ho, if_true] at h
        cases hv : findUser users c with
        | none => rw [hv] at h; exact absurd h (by simp)
        | some v =>
          rw [hv] at h
          by_cases hlen : r.accepters.length > 0
          · simp [hlen] at h
          · have hnil : r.accepters = [] :=
              List.eq_nil_of_length_eq_zero (Nat.eq_zero_of_not_pos hlen)
            rw [hnil] at h
            simp only [List.length_nil, gt_iff_lt, Nat.lt_irrefl, if_false,
              List.any_nil, Bool.false_eq_true, if_false, List.nil_append,
              Except.ok.injEq] at h
            refine ⟨r, v, rfl, rfl, ht, ho, hnil, ?_⟩
            simp only [ht]
            exact h.symm
    · simp [ht] at h

/-- C10: the already-volunteered branch of the volunteer handler is
unreachable: whenever that check runs, the accepter-count check has
already established an empty `accepters` array, so no invocation of the
handler ever returns the already-volunteered failure. -/
theorem volunteer_already_volunteered_unreachable (store : Store)
    (users : Users) (c rid now : Nat) :
    tryAccept store users c rid now ≠ .error .alreadyVolunteered := by
  unfold tryAccept
  cases hr : findRequest store rid with
  | none => simp
  | some r =>
    by_cases ht : r.type = "blood"
    · by_cases ho : r.user = c
      · simp [ht, ho]
      · cases hv : findUser users c with
        | none => simp [ht, ho]
        | some v =>
          by_cases hlen : r.accepters.length > 0
          · simp [ht, ho, hlen]
          · have hnil : r.accepters = [] :=
              List.eq_nil_of_length_eq_zero (Nat.eq_zero_of_not_pos hlen)
            simp [ht, ho, hnil]
    · simp [ht]

/-- C3: for a candidate present in the user directory, the volunteer
handler checks its preconditions in source order — request exists
(`notFound`), type is blood (`wrongType`), candidate is not the owner
(`selfAcceptance`), zero accepters (`alreadyAccepted`) — and for every
input the failure returned is the first violated precondition in that
order, with success exactly when none is violated. -/
theorem volunteer_precondition_order (store : Store) (users : Users)
    (cand rid now : Nat) (u : UserDoc) (hu : findUser users cand = some u) :
    (tryAccept store users cand rid now = .error .notFound ↔
       findRequest store rid = none) ∧
    (∀ r, findRequest store rid = some r →
      (tryAccept store users cand rid now = .error .wrongType ↔
         r.type ≠ "blood") ∧
      (tryAccept store users cand rid now = .error .selfAcceptance ↔
         r.type = "blood" ∧ r.user = cand) ∧
      (tryAccept store users cand rid now = .error .alreadyAccepted ↔
         r.type = "blood" ∧ r.user ≠ cand ∧ r.accepters ≠ []) ∧
      ((∃ s, tryAccept store users cand rid now = .ok s) ↔
         r.type = "blood" ∧ r.user ≠ cand ∧ r.accepters = [])) := by
  cases hr : findRequest store rid with
  | none =>
    refine ⟨by simp [tryAccept, hr], ?_⟩
    intro r hr'
    cases hr'
  | some r =>
    refine ⟨?_, ?_⟩
    · by_cases ht : r.type = "blood"
      · by_cases ho : r.user = cand
        · simp [tryAccept, hr, ht, ho]
        · by_cases hnil : r.accepters = []
          · simp [tryAccept, hr, hu, ht, ho, hnil]
          · have hlen : r.accepters.length > 0 := List.length_pos.mpr hnil
            simp [tryAccept, hr, hu, ht, ho, hlen]
      · simp [tryAccept, hr, ht]
    · intro r' hr'
      injection hr' with e
      subst e
      by_cases ht : r.type = "blood"
      · by_cases ho : r.user = cand
        · simp [tryAccept, hr, ht, ho]
        · by_cases hnil : r.accepters = []
          · simp [tryAccept, hr, hu, ht, ho, hnil]
          · have hlen : r.accepters.length > 0 := List.length_pos.mpr hnil
            simp [tryAccept, hr, hu, ht, ho, hlen, hnil]
      · simp [tryAccept, hr, ht]

/-- Closed witness for C3 at a concrete input: the instantiated
first clause, with the candidate-exists hypothesis discharged by `rfl`. -/
theorem volunteer_precondition_order_witness :
    tryAccept demoStore demoUsers 2 99 7 = .error .notFound ↔
      findRequest demoStore 99 = none :=
  (volunteer_precondition_order demoStore demoUsers 2 99 7
    ⟨2, "don", some "222", "d@x", "volunteer"⟩ rfl).1

/-- Field content of a successfully created document: the owner exists,
the resolved phone is truthy, and the saved document carries the default
status and accepters, the payload type, the fresh id, the owner and the
resolved phone. -/
theorem createRequest_ok_fields {users : Users} {o : Nat} {p : CreatePayload}
    {i n : Nat} {r : Request} (h : createRequest users o p i n = .ok r) :
    ∃ u, findUser users o = some u ∧
      truthy (if truthy p.phone then p.phone else u.phone) = true ∧
      r.status = "pending" ∧ r.accepters = [] ∧ r.type = p.type ∧
      r.id = i ∧ r.user = o ∧
      r.phone = (if truthy p.phone then p.phone else u.phone).getD "" := by
  unfold createRequest at h
  cases hu : findUser users o with
  | none => rw [hu] at h; cases h
  | some u =>
    rw [hu] at h
    cases htr : truthy (if truthy p.phone then p.phone else u.phone) with
    | false => simp [htr] at h
    | true =>
      simp only [htr, Bool.not_true, Bool.false_eq_true, if_false] at h
      refine ⟨u, rfl, htr, ?_⟩
      by_cases t1 : p.type = "blood"
      · simp only [t1, if_true, Except.ok.injEq] at h
        simp [← h, defaultStatus, defaultAccepters, t1]
      · by_cases t2 : p.type = "elder_support"
        · rw [t2] at h
          have hb : ¬("elder_support" : String) = "blood" := by decide
          rw [if_neg hb] at h
          simp only [if_true, Except.ok.injEq] at h
          simp [← h, defaultStatus, defaultAccepters, t2]
        · by_cases t3 : p.type = "complaint"
          · rw [t3] at h
            have hb : ¬("complaint" : String) = "blood" := by decide
            have he : ¬("complaint" : String) = "elder_support" := by decide
            rw [if_neg hb, if_neg he] at h
            simp only [if_true, Except.ok.injEq] at h
            simp [← h, defaultStatus, defaultAccepters, t3]
          · simp only [t1, if_false, t2, if_false, t3, if_false,
              Except.ok.injEq] at h
            simp [← h, defaultStatus, defaultAccepters]

/-- The generic-field pass of the update handler touches nothing outside
`name`, `location` and `contactInfo`. -/
theorem applyGenericUpdates_frame (r : Request) (b : UpdatePayload) :
    (applyGenericUpdates r b).id = r.id ∧
    (applyGenericUpdates r b).type = r.type ∧
    (applyGenericUpdates r b).user = r.user ∧
    (applyGenericUpdates r b).phone = r.phone ∧
    (applyGenericUpdates r b).status = r.status ∧
    (applyGenericUpdates r b).accepters = r.accepters ∧
    (applyGenericUpdates r b).createdAt = r.createdAt ∧
    (applyGenericUpdates r b).updatedAt = r.updatedAt ∧
    (applyGenericUpdates r b).images = r.images ∧
    (applyGenericUpdates r b).priority = r.priority ∧
    (applyGenericUpdates r b).bloodType = r.bloodType ∧
    (applyGenericUpdates r b).urgencyLevel = r.urgencyLevel ∧
    (applyGenericUpdates r b).serviceType = r.serviceType ∧
    (applyGenericUpdates r b).dueDate = r.dueDate ∧
    (applyGenericUpdates r b).title = r.title ∧
    (applyGenericUpdates r b).description = r.description ∧
    (applyGenericUpdates r b).category = r.category := by
  unfold applyGenericUpdates
  cases b.name <;> cases b.location <;> cases b.contactInfo <;> simp

/-- The type-specific pass of the update handler touches nothing outside
the payload fields of the request's own type. -/
theorem applyTypeUpdates_frame (r : Request) (b : UpdatePayload) :
    (applyTypeUpdates r b).id = r.id ∧
    (applyTypeUpdates r b).type = r.type ∧
    (applyTypeUpdates r b).user = r.user ∧
    (applyTypeUpdates r b).name = r.name ∧
    (applyTypeUpdates r b).phone = r.phone ∧
    (applyTypeUpdates r b).location = r.location ∧
    (applyTypeUpdates r b).contactInfo = r.contactInfo ∧
    (applyTypeUpdates r b).status = r.status ∧
    (applyTypeUpdates r b).accepters = r.accepters ∧
    (applyTypeUpdates r b).createdAt = r.createdAt ∧
    (applyTypeUpdates r b).updatedAt = r.updatedAt ∧
    (applyTypeUpdates r b).images = r.images ∧
    (applyTypeUpdates r b).priority = r.priority := by
  unfold applyTypeUpdates
  by_cases t1 : r.type = "blood"
  · simp only [t1, if_true]
    cases b.bloodType <;> cases b.urgencyLevel <;> simp [t1]
  · simp only [t1, if_false]
    by_cases t2 : r.type = "elder_support"
    · simp only [t2, if_true]
      cases b.serviceType <;> cases b.dueDate <;> simp [t2]
    · simp only [t2, if_false]
      by_cases t3 : r.type = "complaint"
      · simp only [t3, if_true]
        cases b.title <;> cases b.description <;> cases b.category <;> simp [t3]
      · simp only [t3, if_false]
        simp

/-- Elimination of a successful update: the document existed, belonged
to the caller, was pending, and the result is exactly the two
allow-listed passes applied to it. -/
theorem updateRequest_ok_elim {store : Store} {v rid : Nat}
    {b : UpdatePayload} {r : Request} (h : updateRequest store v rid b = .ok r) :
    ∃ old, findRequest store rid = some old ∧ old.user = v ∧
      old.status = "pending" ∧
      r = applyTypeUpdates (applyGenericUpdates old b) b := by
  unfold updateRequest at h
  cases hf : findRequest store rid with
  | none => rw [hf] at h; cases h
  | some old =>
    rw [hf] at h
    by_cases h1 : old.user = v
    · by_cases h2 : old.status = "pending"
      · simp only [h1, ne_eq, not_true_eq_false, if_false, h2,
          Except.ok.injEq] at h
        exact ⟨old, rfl, h1, h2, h.symm⟩
      · simp [h1, h2] at h
    · simp [h1] at h

/-- C1: every mutating operation of the routes preserves invariant I1
(each blood request carries at most one acceptance record), and the
only operation that appends an acceptance record does so only on a
request whose accepters array is empty, leaving exactly one record. -/
theorem single_accepter_invariant (store : Store) (users : Users) :
    (∀ ownerId p newId now, invariantI1 store →
       invariantI1 (createOp store users ownerId p newId now)) ∧
    (∀ v rid b, invariantI1 store → invariantI1 (updateOp store v rid b)) ∧
    (∀ v rid, invariantI1 store → invariantI1 (deleteOp store v rid)) ∧
    (∀ c rid now, invariantI1 store →
       invariantI1 (volunteerOp store users c rid now)) ∧
    (∀ c rid now s, tryAccept store users c rid now = .ok s →
       ∃ r, findRequest store rid = some r ∧ r.accepters = [] ∧
         s.updated.accepters = [s.record]) := by
  refine ⟨?_, ?_, ?_, ?_, ?_⟩
  · intro ownerId p newId now hinv
    unfold createOp
    cases hc : createRequest users ownerId p newId now with
    | error e => exact hinv
    | ok r =>
      intro x hx ht
      rcases List.mem_append.mp hx with hx | hx
      · exact hinv x hx ht
      · rcases List.mem_singleton.mp hx with rfl
        rcases createRequest_ok_fields hc with ⟨u, _, _, _, hacc, _⟩
        rw [hacc]
        simp
  · intro v rid b hinv
    unfold updateOp
    cases hu : updateRequest store v rid b with
    | error e => exact hinv
    | ok r =>
      intro x hx ht
      rcases mem_saveRequest hx with rfl | hx
      · rcases updateRequest_ok_elim hu with ⟨old, hfind, _, _, rfl⟩
        have hacc := (applyTypeUpdates_frame (applyGenericUpdates old b) b).2.2.2.2.2.2.2.2.1
        have hacc2 := (applyGenericUpdates_frame old b).2.2.2.2.2.1
        have htype := (applyTypeUpdates_frame (applyGenericUpdates old b) b).2.1
        have htype2 := (applyGenericUpdates_frame old b).2.1
        rw [hacc, hacc2]
        exact hinv old (findRequest_mem hfind) (by rw [← htype2, ← htype]; exact ht)
      · exact hinv x hx ht
  · intro v rid hinv
    unfold deleteOp
    cases hd : tryDelete store v rid with
    | error e => exact hinv
    | ok u =>
      intro x hx ht
      exact hinv x (List.mem_of_mem_filter hx) ht
  · intro c rid now hinv
    unfold volunteerOp
    cases hta : tryAccept store users c rid now with
    | error e => exact hinv
    | ok s =>
      intro x hx ht
      rcases mem_saveRequest hx with rfl | hx
      · rcases tryAccept_ok_elim hta with ⟨r, v, _, _, _, _, _, rfl⟩
        simp
      · exact hinv x hx ht
  · intro c rid now s hta
    rcases tryAccept_ok_elim hta with ⟨r, v, hfind, _, _, _, hnil, rfl⟩
    exact ⟨r, hfind, hnil, rfl⟩

/-- Closed witness for C1: the invariant holds after a concrete
volunteer operation on the demo store, via the preservation theorem with
the initial invariant discharged by `decide`. -/
theorem single_accepter_invariant_witness :
    invariantI1 (volunteerOp demoStore demoUsers 2 10 7) :=
  (single_accepter_invariant demoStore demoUsers).2.2.2.1 2 10 7 (by decide)

/-- C4: a successful volunteer call appends exactly one acceptance
record `{candidateUserId, now, "accepted"}` to the fetched request,
sets its status to accepted, changes nothing else on the document, and
the result carries the new record and the prior owner id. -/
theorem volunteer_success_effect (store : Store) (users : Users)
    (cand rid now : Nat) (s : VolunteerSuccess)
    (h : tryAccept store users cand rid now = .ok s) :
    ∃ r, findRequest store rid = some r ∧
      s.record = ⟨cand, now, "accepted"⟩ ∧
      s.ownerId = r.user ∧
      s.updated = { r with accepters := r.accepters ++ [s.record],
                           status := "accepted" } := by
  rcases tryAccept_ok_elim h with ⟨r, v, hfind, hv, ht, ho, hnil, rfl⟩
  exact ⟨r, hfind, rfl, rfl, by simp [hnil]⟩

/-- Closed witness for C4 at the demo input, with the success hypothesis
discharged by `rfl`. -/
theorem volunteer_success_effect_witness :
    ∃ r, findRequest demoStore 10 = some r ∧
      demoVolunteerSuccess.record = ⟨2, 7, "accepted"⟩ ∧
      demoVolunteerSuccess.ownerId = r.user ∧
      demoVolunteerSuccess.updated =
        { r with accepters := r.accepters ++ [demoVolunteerSuccess.record],
                 status := "accepted" } :=
  volunteer_success_effect demoStore demoUsers 2 10 7 demoVolunteerSuccess rfl

/-- A truthy optional string is recovered by `getD`. -/
theorem truthy_some_getD {o : Option String} (h : truthy o = true) :
    some (o.getD "") = o := by
  cases o with
  | none => simp [truthy] at h
  | some s => rfl

/-- The create handler fails `PHONE_REQUIRED` exactly when the resolved
phone `body.phone || user.phone` is falsy. -/
theorem createRequest_phoneRequired_iff {users : Users} {o : Nat}
    {p : CreatePayload} {i n : Nat} {u : UserDoc}
    (hu : findUser users o = some u) :
    createRequest users o p i n = .error .phoneRequired ↔
      truthy (if truthy p.phone then p.phone else u.phone) = false := by
  unfold createRequest
  rw [hu]
  cases htr : truthy (if truthy p.phone then p.phone else u.phone) with
  | false => simp [htr]
  | true =>
    simp only [htr, Bool.not_true, Bool.false_eq_true, if_false]
    by_cases t1 : p.type = "blood"
    · simp [t1]
    · by_cases t2 : p.type = "elder_support"
      · simp [t1, t2]
      · by_cases t3 : p.type = "complaint"
        · simp [t1, t2, t3]
        · simp [t1, t2, t3]

/-- C9: for an owner present in the directory, the create handler fails
`PHONE_REQUIRED` exactly when both the payload phone and the profile
phone are absent (falsy); otherwise it persists the new request with
status pending and with the payload phone when present, else the profile
phone. -/
theorem create_phone_policy (users : Users) (ownerId : Nat)
    (p : CreatePayload) (newId now : Nat) (u : UserDoc)
    (hu : findUser users ownerId = some u) :
    (createRequest users ownerId p newId now = .error .phoneRequired ↔
       truthy p.phone = false ∧ truthy u.phone = false) ∧
    (∀ r, createRequest users ownerId p newId now = .ok r →
       r.status = "pending" ∧
       (truthy p.phone = true → some r.phone = p.phone) ∧
       (truthy p.phone = false → some r.phone = u.phone) ∧
       (∀ store, createOp store users ownerId p newId now = store ++ [r])) := by
  constructor
  · rw [createRequest_phoneRequired_iff hu]
    cases hp : truthy p.phone with
    | true => simp [hp]
    | false => simp [hp]
  · intro r h
    rcases createRequest_ok_fields h with
      ⟨u', hu', htr, hstat, _, _, _, _, hphone⟩
    rw [hu] at hu'
    injection hu' with e
    subst e
    refine ⟨hstat, ?_, ?_, ?_⟩
    · intro hp
      rw [hphone, if_pos hp]
      exact truthy_some_getD (by rwa [if_pos hp] at htr)
    · intro hp
      rw [hphone, if_neg (by simp [hp])]
      exact truthy_some_getD (by rwa [if_neg (by simp [hp])] at htr)
    · intro store
      unfold createOp
      rw [h]

/-- Closed witness for C9 at a concrete input: the instantiated failure
equivalence, with the owner-exists hypothesis discharged by `rfl`. -/
theorem create_phone_policy_witness :
    createRequest demoUsers 1 demoPayload 11 8 = .error .phoneRequired ↔
      truthy demoPayload.phone = false ∧
      truthy (some "111" : Option String) = false :=
  (create_phone_policy demoUsers 1 demoPayload 11 8
    ⟨1, "owner", some "111", "o@x", "citizen"⟩ rfl).1

/-- C5: for a stored request with at most one accepter, the contacts
read fails `wrongType` exactly when the request is not blood, fails
`forbidden` exactly when the viewer is neither the owner nor the sole
accepter, fails `notAccepted` (for an authorized viewer of a blood
request) exactly when the status is not accepted, and on success returns
the full name, phone and email of both the requester and the donor. -/
theorem mutual_contacts_policy (store : Store) (users : Users)
    (viewer rid : Nat) (r : Request)
    (hr : findRequest store rid = some r) (hlen : r.accepters.length ≤ 1) :
    (getMutualContacts store users viewer rid = .error .wrongType ↔
       r.type ≠ "blood") ∧
    (r.type = "blood" →
      (getMutualContacts store users viewer rid = .error .forbidden ↔
         r.user ≠ viewer ∧ ∀ a ∈ r.accepters, a.user ≠ viewer)) ∧
    (r.type = "blood" →
      (r.user = viewer ∨ ∃ a ∈ r.accepters, a.user = viewer) →
      (getMutualContacts store users viewer rid = .error .notAccepted ↔
         r.status ≠ "accepted")) ∧
    (∀ v, getMutualContacts store users viewer rid = .ok v →
       ∀ ow a au, findUser users r.user = some ow → r.accepters = [a] →
         findUser users a.user = some au →
         v.requester = some ⟨ow.name, ow.phone, ow.email⟩ ∧
         v.donor = some ⟨au.name, au.phone, au.email, a.acceptedAt⟩) := by
  by_cases ht : r.type = "blood"
  · refine ⟨?_, ?_, ?_, ?_⟩
    · simp only [getMutualContacts, hr, ht]
      simp only [ne_eq, not_true_eq_false, if_false]
      constructor
      · intro h
        split_ifs at h <;> simp_all
      · intro h
        exact h.elim
    · intro _
      simp only [getMutualContacts, hr, ht, ne_eq, not_true_eq_false, if_false]
      by_cases hacc : (r.user == viewer || r.accepters.any fun a => a.user = viewer) = true
      · rw [hacc]
        simp only [Bool.not_true, Bool.false_eq_true, if_false]
        constructor
        · intro h
          split_ifs at h <;> simp_all
        · intro ⟨h1, h2⟩
          rcases Bool.or_eq_true_iff.mp hacc with h | h
          · exact absurd (eq_of_beq h) h1
          · rcases List.any_eq_true.mp h with ⟨a, ha, he⟩
            exact absurd (of_decide_eq_true he) (h2 a ha)
      · rw [Bool.not_eq_true] at hacc
        rw [hacc]
        simp only [Bool.not_false, if_true, true_iff]
        rw [Bool.or_eq_false_iff] at hacc
        refine ⟨fun he => by simp [he] at hacc, ?_⟩
        intro a ha he
        have := hacc.2
        rw [List.any_eq_false] at this
        exact absurd (decide_eq_true (by rw [he])) (this a ha)
    · intro _ hauth
      have hacc : (r.user == viewer || r.accepters.any fun a => a.user = viewer) = true := by
        rcases hauth with h | ⟨a, ha, he⟩
        · exact Bool.or_eq_true_iff.mpr (Or.inl (beq_iff_eq.mpr h))
        · exact Bool.or_eq_true_iff.mpr (Or.inr (List.any_eq_true.mpr ⟨a, ha, decide_eq_true he⟩))
      simp only [getMutualContacts, hr, ht, ne_eq, not_true_eq_false, if_false,
        hacc, Bool.not_true, Bool.false_eq_true]
      by_cases hstat : r.status = "accepted"
      · simp [hstat]
      · simp [hstat]
    · intro v hv ow a au how hone hau
      simp only [getMutualContacts, hr, ht, ne_eq, not_true_eq_false,
        if_false] at hv
      rw [hone] at hv
      split_ifs at hv <;>
        first
          | exact Except.noConfusion hv
          | (simp only [Except.ok.injEq] at hv
             subst hv
             simp [contactOf, how, hau])
  · refine ⟨by simp [getMutualContacts, hr, ht], fun h => absurd h ht,
      fun h => absurd h ht, ?_⟩
    intro v hv
    simp [getMutualContacts, hr, ht] at hv

/-- Closed witness for C5 at a concrete accepted request, with the
store hypotheses discharged by `rfl` and `decide`. -/
theorem mutual_contacts_policy_witness :
    getMutualContacts demoAcceptedStore demoUsers 1 10 = .error .wrongType ↔
      demoAcceptedRequest.type ≠ "blood" :=
  (mutual_contacts_policy demoAcceptedStore demoUsers 1 10
    demoAcceptedRequest rfl (by decide)).1

/-- C6: every item of the anonymous public blood listing carries the
`"Hidden"` sentinel in its phone field and in the populated owner name
field — never the real values. -/
theorem public_blood_redaction (store : Store) (viewer : Nat)
    (item : PublicItem) (h : item ∈ publicBloodRequests store viewer) :
    item.phone = "Hidden" ∧ item.userName = "Hidden" := by
  simp only [publicBloodRequests, List.mem_map] at h
  rcases h with ⟨r, _, rfl⟩
  exact ⟨rfl, rfl⟩

/-- Closed witness for C6: the demo request appears in the public
listing for an unrelated viewer and is redacted; the membership
hypothesis is discharged by evaluation. -/
theorem public_blood_redaction_witness :
    (⟨10, "n", "Hidden", "loc", some "O+", some "urgent", "pending", 5, 1,
      "Hidden"⟩ : PublicItem).phone = "Hidden" ∧
    (⟨10, "n", "Hidden", "loc", some "O+", some "urgent", "pending", 5, 1,
      "Hidden"⟩ : PublicItem).userName = "Hidden" :=
  public_blood_redaction demoStore 99 _
    (by simp [publicBloodRequests, demoStore, demoRequest])

/-- Running the check phase and then immediately the write phase against
the same store is exactly the one-shot handler `tryAccept`, both in its
result and in its effect on the store; the phased model adds nothing but
the possibility of another write between the two phases. -/
theorem volunteerPhases_eq_tryAccept (store : Store) (users : Users)
    (c rid now : Nat) :
    (∀ e, volunteerCheckPhase store users c rid = .error e ↔
       tryAccept store users c rid now = .error e) ∧
    (∀ r v, volunteerCheckPhase store users c rid = .ok (r, v) →
       findRequest store rid = some r ∧
       tryAccept store users c rid now =
         .ok (volunteerWritePhase store users r v c now).2 ∧
       volunteerOp store users c rid now =
         (volunteerWritePhase store users r v c now).1) := by
  have hred : ∀ x y, volunteerCheckPhase store users c rid = x →
      tryAccept store users c rid now = y →
      (volunteerCheckPhase store users c rid = x ∧
       tryAccept store users c rid now = y) := fun _ _ hx hy => ⟨hx, hy⟩
  constructor
  · intro e
    cases hr : findRequest store rid with
    | none => simp [volunteerCheckPhase, tryAccept, hr]
    | some r =>
      by_cases ht : r.type = "blood"
      · by_cases ho : r.user = c
        · simp [volunteerCheckPhase, tryAccept, hr, ht, ho]
        · cases hv : findUser users c with
          | none => simp [volunteerCheckPhase, tryAccept, hr, ht, ho, hv]
          | some v =>
            by_cases hlen : r.accepters.length > 0
            · simp [volunteerCheckPhase, tryAccept, hr, ht, ho, hv, hlen]
            · have hnil : r.accepters = [] :=
                List.eq_nil_of_length_eq_zero (Nat.eq_zero_of_not_pos hlen)
              simp [volunteerCheckPhase, tryAccept, hr, ht, ho, hv, hnil]
      · simp [volunteerCheckPhase, tryAccept, hr, ht]
  · intro r v h
    unfold volunteerCheckPhase at h
    cases hr : findRequest store rid with
    | none => rw [hr] at h; cases h
    | some r0 =>
      rw [hr] at h
      by_cases ht : r0.type = "blood"
      · by_cases ho : r0.user = c
        · simp [ht, ho] at h
        · simp only [ht, ne_eq, not_true_eq_false, if_false, ho, if_true] at h
          cases hv : findUser users c with
          | none => rw [hv] at h; cases h
          | some v0 =>
            rw [hv] at h
            by_cases hlen : r0.accepters.length > 0
            · simp [hlen] at h
            · have hnil : r0.accepters = [] :=
                List.eq_nil_of_length_eq_zero (Nat.eq_zero_of_not_pos hlen)
              simp only [hlen, if_false, hnil, List.any_nil,
                Bool.false_eq_true, if_false, Except.ok.injEq,
                Prod.mk.injEq] at h
              rcases h with ⟨rfl, rfl⟩
              have hta : tryAccept store users c rid now =
                  .ok (volunteerWritePhase store users r v c now).2 := by
                unfold tryAccept volunteerWritePhase
                rw [hr]
                simp [ht, ho, hv, hnil]
              refine ⟨rfl, hta, ?_⟩
              unfold volunteerOp
              rw [hta]
              unfold volunteerWritePhase
              simp only []
              have hid : r.id = rid := by
                have := List.find?_some hr
                simpa using this
              rw [hid]
      · simp [ht] at h

/-- C2 (refutation evidence): under the interleaving in which both
candidates pass their checks against the initial store before either
write commits, both volunteer invocations on the demo pending blood
request succeed, and the saved store holds only the second acceptance —
the first is silently overwritten, so it is not the case that exactly
one invocation succeeds with the rest receiving the already-accepted
failure. -/
theorem volunteer_race_both_succeed :
    (racedVolunteer demoStore demoUsers 2 3 10 6 7).1 =
      .ok { updated := { demoRequest with accepters := [⟨2, 6, "accepted"⟩],
                                          status := "accepted" },
            ownerId := 1, record := ⟨2, 6, "accepted"⟩,
            requester := some ⟨"owner", some "111", "o@x"⟩,
            donor := ⟨"don", some "222", "d@x"⟩ } ∧
    (racedVolunteer demoStore demoUsers 2 3 10 6 7).2.1 =
      .ok { updated := { demoRequest with accepters := [⟨3, 7, "accepted"⟩],
                                          status := "accepted" },
            ownerId := 1, record := ⟨3, 7, "accepted"⟩,
            requester := some ⟨"owner", some "111", "o@x"⟩,
            donor := ⟨"don3", some "333", "e@x"⟩ } ∧
    (racedVolunteer demoStore demoUsers 2 3 10 6 7).2.2 =
      [{ demoRequest with accepters := [⟨3, 7, "accepted"⟩],
                          status := "accepted" }] :=
  ⟨rfl, rfl, rfl⟩

/-- Every returned list item comes from a stored document matching the
query, through the per-item visibility mapping. -/
theorem listRequests_mem {store : Store} {users : Users} {viewer : Nat}
    {tf : Option String} {sf : Option (List String)} {sb : String}
    {page lim : Nat} {item : ListItem}
    (h : item ∈ listRequests store users viewer tf sf sb page lim) :
    ∃ r ∈ store, listQueryMatches viewer tf sf r = true ∧
      item = listItemFor users viewer r := by
  simp only [listRequests, List.mem_map] at h
  rcases h with ⟨r, hr, rfl⟩
  have hr1 : r ∈ (store.filter (listQueryMatches viewer tf sf)).mergeSort
      (listSortLe sb) :=
    List.drop_subset _ _ (List.take_subset _ _ hr)
  have hr2 : r ∈ store.filter (listQueryMatches viewer tf sf) :=
    (List.mergeSort_perm (store.filter (listQueryMatches viewer tf sf))
      (listSortLe sb)).mem_iff.mp hr1
  rcases List.mem_filter.mp hr2 with ⟨hmem, hq⟩
  exact ⟨r, hmem, hq, rfl⟩

/-- C7 counterexample: for the demo pending blood request with no
accepters, the single-item read invoked by the non-owner viewer 2
(role volunteer) returns the stored document with its real phone and
the owner contact block unredacted — not the `"Hidden"` sentinel the
claim requires for every non-owner viewer. -/
theorem get_nonowner_unredacted_counterexample :
    demoRequest.type = "blood" ∧ demoRequest.status = "pending" ∧
    demoRequest.accepters = [] ∧ demoRequest.user ≠ 2 ∧
    getRequestById demoStore demoUsers 2 10 =
      .ok ⟨demoRequest, some ⟨"owner", some "111", "o@x"⟩⟩ ∧
    demoRequest.phone ≠ "Hidden" ∧
    (some ⟨"owner", some "111", "o@x"⟩ : Option Contact) ≠
      some ⟨"Hidden", some "Hidden", "Hidden"⟩ :=
  ⟨rfl, rfl, rfl, by decide, rfl, by decide, by decide⟩

/-- C7 amended: the list endpoint only ever returns the viewer's own
requests, each of them the stored document unredacted with its accepters
populated; the single-item read fails `forbidden` for a citizen
non-owner and returns the stored document with no field redacted for
the owner and for every non-citizen viewer. -/
theorem list_get_visibility (store : Store) (users : Users)
    (viewer : Nat) (tf : Option String) (sf : Option (List String))
    (sb : String) (page lim rid : Nat) :
    (∀ item ∈ listRequests store users viewer tf sf sb page lim,
       item.request.user = viewer ∧
       ∃ r ∈ store, item = ⟨r, r.accepters.map (populateAccepter users)⟩) ∧
    (∀ r u, findRequest store rid = some r →
       findUser users viewer = some u →
       (u.role = "citizen" ∧ r.user ≠ viewer →
          getRequestById store users viewer rid = .error .forbidden) ∧
       (u.role ≠ "citizen" ∨ r.user = viewer →
          getRequestById store users viewer rid =
            .ok ⟨r, contactOf users r.user⟩)) := by
  constructor
  · intro item hitem
    rcases listRequests_mem hitem with ⟨r, hmem, hq, rfl⟩
    have hown : r.user = viewer := by
      have := (Bool.and_eq_true _ _).mp ((Bool.and_eq_true _ _).mp hq).1
      exact eq_of_beq this.1
    constructor
    · simp [listItemFor, hown]
    · exact ⟨r, hmem, by simp [listItemFor, hown]⟩
  · intro r u hr hu
    constructor
    · intro ⟨hrole, howner⟩
      simp [getRequestById, hr, hu, hrole, howner]
    · intro hcase
      have hcond : ¬(u.role = "citizen" ∧ r.user ≠ viewer) := by
        rcases hcase with h | h
        · exact fun hc => h hc.1
        · exact fun hc => hc.2 h
      simp [getRequestById, hr, hu, hcond]

/-- Closed witness for the amended C7 at a concrete input: viewer 4 is a
citizen who does not own the demo request, so the single-item read is
forbidden; both store hypotheses are discharged by `rfl`. -/
theorem list_get_visibility_witness :
    ((⟨4, "other", some "444", "f@x", "citizen"⟩ : UserDoc).role =
        "citizen" ∧ demoRequest.user ≠ 4 →
      getRequestById demoStore demoUsers 4 10 = .error .forbidden) ∧
    ((⟨4, "other", some "444", "f@x", "citizen"⟩ : UserDoc).role ≠
        "citizen" ∨ demoRequest.user = 4 →
      getRequestById demoStore demoUsers 4 10 =
        .ok ⟨demoRequest, contactOf demoUsers demoRequest.user⟩) :=
  (list_get_visibility demoStore demoUsers 4 none none "newest" 1 10 10).2
    demoRequest ⟨4, "other", some "444", "f@x", "citizen"⟩ rfl rfl

/-- C8 counterexample: the owner updating the demo pending blood request
with a body containing only `contactInfo` succeeds and changes the
stored `contactInfo` field — a field outside the type allow-list plus
the generic fields (name, location) of the claim. -/
theorem update_contactinfo_counterexample :
    updateRequest demoStore 1 10 demoUpdateBody =
      .ok { demoRequest with contactInfo := some "cinfo" } ∧
    demoRequest.contactInfo = none ∧
    ¬((some "cinfo" : Option String) = demoRequest.contactInfo) ∧
    demoRequest.type = "blood" :=
  ⟨rfl, rfl, by decide, rfl⟩

/-- The update handler reads neither the `phone` nor the `status` field
of its body: both are outside every allow-list. -/
theorem updateRequest_ignores_unknown (store : Store) (v rid : Nat)
    (b : UpdatePayload) (p s : Option String) :
    updateRequest store v rid { b with phone := p, status := s } =
      updateRequest store v rid b := rfl

/-- The cross-type payload fields are untouched by the type-specific
update pass. -/
theorem applyTypeUpdates_cross (r : Request) (b : UpdatePayload) :
    (r.type = "blood" →
      (applyTypeUpdates r b).serviceType = r.serviceType ∧
      (applyTypeUpdates r b).dueDate = r.dueDate ∧
      (applyTypeUpdates r b).title = r.title ∧
      (applyTypeUpdates r b).description = r.description ∧
      (applyTypeUpdates r b).category = r.category) ∧
    (r.type = "elder_support" →
      (applyTypeUpdates r b).bloodType = r.bloodType ∧
      (applyTypeUpdates r b).urgencyLevel = r.urgencyLevel ∧
      (applyTypeUpdates r b).title = r.title ∧
      (applyTypeUpdates r b).description = r.description ∧
      (applyTypeUpdates r b).category = r.category) ∧
    (r.type = "complaint" →
      (applyTypeUpdates r b).bloodType = r.bloodType ∧
      (applyTypeUpdates r b).urgencyLevel = r.urgencyLevel ∧
      (applyTypeUpdates r b).serviceType = r.serviceType ∧
      (applyTypeUpdates r b).dueDate = r.dueDate) := by
  refine ⟨?_, ?_, ?_⟩ <;> intro ht
  · simp only [applyTypeUpdates, ht, if_true]
    cases b.bloodType <;> cases b.urgencyLevel <;> simp
  · have hb : ¬("elder_support" : String) = "blood" := by decide
    simp only [applyTypeUpdates, ht, if_neg hb, if_true]
    cases b.serviceType <;> cases b.dueDate <;> simp
  · have hb : ¬("complaint" : String) = "blood" := by decide
    have he : ¬("complaint" : String) = "elder_support" := by decide
    simp only [applyTypeUpdates, ht, if_neg hb, if_neg he, if_true]
    cases b.title <;> cases b.description <;> cases b.category <;> simp

/-- C8 amended: a successful owner update of a pending request modifies
only the type allow-list plus the generic fields name, location and
contactInfo; every other stored field the routes read is unchanged, and
body fields outside the allow-lists (such as phone or status) are
silently ignored rather than failing. -/
theorem update_allowlist_frame (store : Store) (v rid : Nat)
    (b : UpdatePayload) (r old : Request)
    (hok : updateRequest store v rid b = .ok r)
    (hold : findRequest store rid = some old) :
    r.id = old.id ∧ r.type = old.type ∧ r.user = old.user ∧
    r.phone = old.phone ∧ r.status = old.status ∧
    r.accepters = old.accepters ∧ r.createdAt = old.createdAt ∧
    r.images = old.images ∧ r.priority = old.priority ∧
    (old.type = "blood" →
      r.serviceType = old.serviceType ∧ r.dueDate = old.dueDate ∧
      r.title = old.title ∧ r.description = old.description ∧
      r.category = old.category) ∧
    (old.type = "elder_support" →
      r.bloodType = old.bloodType ∧ r.urgencyLevel = old.urgencyLevel ∧
      r.title = old.title ∧ r.description = old.description ∧
      r.category = old.category) ∧
    (old.type = "complaint" →
      r.bloodType = old.bloodType ∧ r.urgencyLevel = old.urgencyLevel ∧
      r.serviceType = old.serviceType ∧ r.dueDate = old.dueDate) ∧
    (∀ p s, updateRequest store v rid { b with phone := p, status := s } =
      .ok r) := by
  rcases updateRequest_ok_elim hok with ⟨old2, hold2, _, _, rfl⟩
  rw [hold] at hold2
  injection hold2 with e
  subst e
  have hg := applyGenericUpdates_frame old b
  have htf := applyTypeUpdates_frame (applyGenericUpdates old b) b
  have hcross := applyTypeUpdates_cross (applyGenericUpdates old b) b
  obtain ⟨g1, g2, g3, g4, g5, g6, g7, g8, g9, g10, g11, g12, g13, g14,
    g15, g16, g17⟩ := hg
  obtain ⟨t1, t2, t3, t4, t5, t6, t7, t8, t9, t10, t11, t12, t13⟩ := htf
  refine ⟨t1.trans g1, t2.trans g2, t3.trans g3, t5.trans g4,
    t8.trans g5, t9.trans g6, t10.trans g7, t12.trans g9,
    t13.trans g10, ?_, ?_, ?_, ?_⟩
  · intro ht
    have := hcross.1 (g2.trans ht)
    exact ⟨this.1.trans g13, this.2.1.trans g14, this.2.2.1.trans g15,
      this.2.2.2.1.trans g16, this.2.2.2.2.trans g17⟩
  · intro ht
    have := hcross.2.1 (g2.trans ht)
    exact ⟨this.1.trans g11, this.2.1.trans g12, this.2.2.1.trans g15,
      this.2.2.2.1.trans g16, this.2.2.2.2.trans g17⟩
  · intro ht
    have := hcross.2.2 (g2.trans ht)
    exact ⟨this.1.trans g11, this.2.1.trans g12, this.2.2.1.trans g13,
      this.2.2.2.trans g14⟩
  · intro p s
    exact (updateRequest_ignores_unknown store v rid b p s).trans hok

/-- Closed witness for the amended C8 at a concrete input: the frame
holds for the demo update, both hypotheses discharged by `rfl`. -/
theorem update_allowlist_frame_witness :
    ({ demoRequest with contactInfo := some "cinfo" } : Request).status =
        demoRequest.status ∧
    ({ demoRequest with contactInfo := some "cinfo" } : Request).accepters =
        demoRequest.accepters :=
  ⟨(update_allowlist_frame demoStore 1 10 demoUpdateBody
      { demoRequest with contactInfo := some "cinfo" } demoRequest
      rfl rfl).2.2.2.2.1,
   (update_allowlist_frame demoStore 1 10 demoUpdateBody
      { demoRequest with contactInfo := some "cinfo" } demoRequest
      rfl rfl).2.2.2.2.2.1⟩
